import Mathlib

/-!
Shallow embedding of the ambient micro-learning demo
(`src/ambient-skill-sync/src/App.tsx`) and proofs about its
context-driven lesson-selection engine, queue mutator and profile
updates.  Randomness is resolved by passing the drawn values (rationals
in `[0,1)`, booleans for the coin flips) as explicit arguments; the
wall clock is an explicit `Nat` argument.  JavaScript array indexing
`xs[i]` (which yields `undefined` out of bounds) is modelled with
`Option`.
-/

namespace AmbientSkillSync

-- ============== TYPES ==============

structure Coordinates where
  lat : ℚ
  lon : ℚ
  deriving DecidableEq, Repr

structure Lesson where
  id : String
  title : String
  tags : List String
  text : String
  xp : Nat
  icon : String
  color : String
  deriving DecidableEq, Repr

inductive TimeOfDay where
  | morning
  | afternoon
  | evening
  | manual
  deriving DecidableEq, Repr

structure Context where
  timeOfDay : TimeOfDay
  tags : List String
  coords : Option Coordinates
  mood : String
  deriving DecidableEq, Repr

/-- `LessonItem = Lesson & { triggeredAt?, context? }` -/
structure LessonItem extends Lesson where
  triggeredAt : Option Nat := none
  context : Option Context := none
  deriving DecidableEq, Repr

structure Profile where
  name : String
  skills : List String
  xp : Nat
  streak : Nat
  level : Nat
  deriving DecidableEq, Repr

/-- `LastTrigger = { lessonId, at } | null`, as an optional pair. -/
abbrev LastTrigger := Option (String × Nat)

-- ============== CONSTANTS ==============

def INITIAL_PROFILE : Profile :=
  { name := "Alex Chen"
    skills := ["Productivity", "AI Literacy", "Culinary Arts", "Mindfulness", "Finance"]
    xp := 245
    streak := 14
    level := 7 }

def lessonP1 : Lesson :=
  { id := "p1"
    title := "Productivity Pulse"
    tags := ["Productivity", "Focus", "Time Management"]
    text := "Apply the 2-Minute Rule: if a task takes less than two minutes, do it immediately. This prevents small tasks from piling up."
    xp := 25
    icon := "⚡"
    color := "from-amber-500 to-orange-500" }

def lessonC1 : Lesson :=
  { id := "c1"
    title := "Culinary Chemistry"
    tags := ["Cooking", "Science", "Kitchen"]
    text := "Add a pinch of salt to coffee grounds before brewing to reduce bitterness by blocking bitter receptors on your tongue."
    xp := 30
    icon := "🍳"
    color := "from-rose-500 to-pink-500" }

def lessonA1 : Lesson :=
  { id := "a1"
    title := "AI Insight"
    tags := ["AI", "Technology", "Learning"]
    text := "Attention mechanisms in transformers allow models to focus on relevant parts of input, similar to human concentration."
    xp := 40
    icon := "🤖"
    color := "from-blue-500 to-cyan-500" }

def lessonS1 : Lesson :=
  { id := "s1"
    title := "Mindful Minute"
    tags := ["Wellness", "Mindfulness", "Health"]
    text := "Practice \x27box breathing\x27: inhale 4s, hold 4s, exhale 4s, hold 4s. Repeat 4 times to reset your nervous system."
    xp := 20
    icon := "🧘"
    color := "from-emerald-500 to-teal-500" }

def lessonE1 : Lesson :=
  { id := "e1"
    title := "Financial Flash"
    tags := ["Finance", "Investing", "Growth"]
    text := "The Rule of 72: Divide 72 by your annual return rate to estimate how many years it takes to double your investment."
    xp := 35
    icon := "💰"
    color := "from-purple-500 to-violet-500" }

def lessonH1 : Lesson :=
  { id := "h1"
    title := "Health Hack"
    tags := ["Health", "Wellness", "Habit"]
    text := "Drink a glass of water before each meal. This aids digestion and helps with portion control naturally."
    xp := 15
    icon := "💧"
    color := "from-sky-500 to-blue-500" }

def LESSONS : List Lesson := [lessonP1, lessonC1, lessonA1, lessonS1, lessonE1, lessonH1]

-- ============== UTILITIES ==============

/-- `getTimeOfDay` from the source: the second branch is a plain
`hour < 17` fall-through, so hours 0-4 land in `afternoon`. -/
def getTimeOfDay (hour : Nat) : TimeOfDay :=
  if 5 ≤ hour ∧ hour < 12 then .morning
  else if hour < 17 then .afternoon
  else .evening

def MOODS : List String :=
  ["Focused", "Curious", "Relaxed", "Energetic", "Creative", "Analytical"]

/-- JavaScript `xs[Math.floor(r * xs.length)]`: out-of-range indices
(only possible for `r` outside `[0,1)`) yield `undefined`, modelled as
`none`. -/
def jsIndex {α : Type} (l : List α) (r : ℚ) : Option α :=
  let idx : ℤ := Int.floor (r * (l.length : ℚ))
  if 0 ≤ idx then l[idx.toNat]? else none

/-- `getMood` with the uniform draw `r` made explicit. -/
def getMood (r : ℚ) : Option String :=
  jsIndex MOODS r

/-- Lookup in the seen-counter record: `prev[id] || 0`. -/
def lookupD (m : List (String × Nat)) (k : String) : Nat :=
  match m with
  | [] => 0
  | (k₁, v) :: rest => if k₁ = k then v else lookupD rest k

/-- JavaScript object update `{ ...prev, [k]: v }`: replaces the
existing binding in place, otherwise appends a new one. -/
def setKey (m : List (String × Nat)) (k : String) (v : Nat) : List (String × Nat) :=
  match m with
  | [] => [(k, v)]
  | (k₁, v₁) :: rest => if k₁ = k then (k, v) :: rest else (k₁, v₁) :: setKey rest k v

theorem lookupD_setKey (m : List (String × Nat)) (k : String) (v : Nat) :
    lookupD (setKey m k v) k = v := by
  induction m with
  | nil => simp [setKey, lookupD]
  | cons p rest ih =>
    obtain ⟨k₁, v₁⟩ := p
    by_cases h : k₁ = k
    · simp [setKey, lookupD, h]
    · simp [setKey, lookupD, h, ih]

-- ============== APP STATE ==============

structure AppState where
  ambientOn : Bool
  lessonsSeen : List (String × Nat)
  queue : List LessonItem
  lastTrigger : LastTrigger
  profile : Profile
  currentLesson : Option LessonItem
  envTags : List String
  lastLocation : Option Coordinates
  deriving DecidableEq, Repr

/-- Initial in-memory state, using the `safeGet` fallback values for the
persisted keys (`ambientOn` false, empty seen counters, the default
three environment tags). -/
def initialAppState : AppState :=
  { ambientOn := false
    lessonsSeen := []
    queue := []
    lastTrigger := none
    profile := INITIAL_PROFILE
    currentLesson := none
    envTags := ["Focus", "Learning", "Wellness"]
    lastLocation := none }

-- ============== AMBIENT ENGINE ==============

/-- `buildSimulatedContext`: the wall-clock hour, the drawn mood and the
three random coin flips (`idle`, `waiting`, the location roll) are
explicit arguments. -/
def buildSimulatedContext (envTags : List String) (lastLocation : Option Coordinates)
    (hour : Nat) (mood : String) (idle waiting locRoll : Bool) : Context :=
  let timeOfDay := getTimeOfDay hour
  let tags₀ := envTags
  let tags₁ := if idle then tags₀ ++ ["Idle"] else tags₀
  let tags₂ := if waiting then tags₁ ++ ["Waiting"] else tags₁
  let tags₃ := if timeOfDay = .morning then tags₂ ++ ["Morning"] else tags₂
  let tags₄ := if timeOfDay = .evening then tags₃ ++ ["Evening"] else tags₃
  let tags₅ := if lastLocation.isSome && locRoll then tags₄ ++ ["Location-based"] else tags₄
  { timeOfDay := timeOfDay, tags := tags₅ ++ [mood], coords := lastLocation, mood := mood }

/-- The candidate filter inside `pickLessonForContext`. -/
def pickCandidates (ctx : Context) (skills : List String) : List Lesson :=
  LESSONS.filter (fun lesson =>
    lesson.tags.any (fun tag => ctx.tags.contains tag || skills.contains tag))

/-- `weight: 1 / ((lessonsSeen[lesson.id] || 0) + 1)`. -/
def lessonWeight (seen : List (String × Nat)) (lesson : Lesson) : ℚ :=
  1 / ((lookupD seen lesson.id : ℚ) + 1)

/-- `reduce((sum, { weight }) => sum + weight, 0)`. -/
def totalWeight (ws : List (Lesson × ℚ)) : ℚ :=
  ws.foldl (fun sum p => sum + p.2) 0

/-- The roulette-wheel loop: return the first candidate whose weight
exceeds the remaining draw, subtracting as we walk; `none` when the
loop falls through. -/
def walkWeighted (r : ℚ) (ws : List (Lesson × ℚ)) : Option Lesson :=
  match ws with
  | [] => none
  | (lesson, w) :: rest => if r < w then some lesson else walkWeighted (r - w) rest

/-- `pickLessonForContext`, with the two `Math.random()` draws (`r₁` for
the roulette wheel, `r₂` for the uniform fallback) made explicit. -/
def pickLessonForContext (ctx : Context) (skills : List String)
    (seen : List (String × Nat)) (r₁ r₂ : ℚ) : Option Lesson :=
  let weighted := (pickCandidates ctx skills).map (fun lesson => (lesson, lessonWeight seen lesson))
  let walked :=
    if 0 < weighted.length then walkWeighted (r₁ * totalWeight weighted) weighted else none
  match walked with
  | some lesson => some lesson
  | none => jsIndex LESSONS r₂

/-- The `setQueue` updater of `enqueueLesson`: capacity check first,
then the duplicate-id check, then prepend. -/
def enqueueQueueUpdate (q : List LessonItem) (lesson : Lesson) (ctx : Context)
    (now : Nat) : List LessonItem :=
  if 5 ≤ q.length then q
  else if q.any (fun item => item.id == lesson.id) then q
  else { toLesson := lesson, triggeredAt := some now, context := some ctx } :: q

/-- Full effect of `enqueueLesson` on the state: the queue updater plus
the unconditional `setLastTrigger`. -/
def enqueueLessonState (s : AppState) (lesson : Lesson) (ctx : Context)
    (now : Nat) : AppState :=
  { s with
    queue := enqueueQueueUpdate s.queue lesson ctx now
    lastTrigger := some (lesson.id, now) }

-- ============== HANDLERS ==============

/-- `showLesson`: set the current lesson, bump its seen counter, award
XP and streak, and filter the lesson out of the queue. -/
def showLesson (s : AppState) (item : LessonItem) : AppState :=
  { s with
    currentLesson := some item
    lessonsSeen := setKey s.lessonsSeen item.id (lookupD s.lessonsSeen item.id + 1)
    profile := { s.profile with
                  xp := s.profile.xp + item.xp
                  streak := s.profile.streak + 1 }
    queue := s.queue.filter (fun x => x.id != item.id) }

def dismissLesson (s : AppState) : AppState :=
  { s with currentLesson := none }

/-- The `relevantLessons` filter of `manualTrigger`: note the second
disjunct tests whether the REQUESTED tag is one of the profile skills,
independently of the lesson. -/
def relevantLessons (tag : String) (skills : List String) : List Lesson :=
  LESSONS.filter (fun l => l.tags.contains tag || skills.contains tag)

/-- The lesson choice of `manualTrigger` (one uniform draw `r`). -/
def manualPickLesson (tag : String) (skills : List String) (r : ℚ) : Option Lesson :=
  let rel := relevantLessons tag skills
  if 0 < rel.length then jsIndex rel r else jsIndex LESSONS r

/-- The `setQueue` updater of `manualTrigger`: duplicate-id check, then
prepend and unconditionally slice to the first 5 entries — there is no
capacity rejection on this path. -/
def manualQueueUpdate (q : List LessonItem) (lesson : Lesson) (ctx : Context)
    (now : Nat) : List LessonItem :=
  if q.any (fun item => item.id == lesson.id) then q
  else (({ toLesson := lesson, triggeredAt := some now, context := some ctx } : LessonItem) :: q).take 5

/-- `manualTrigger`, with the mood and uniform draw explicit. -/
def manualTrigger (s : AppState) (tag mood : String) (r : ℚ) (now : Nat) : AppState :=
  let ctx : Context :=
    { tags := [tag, "Manual"], timeOfDay := .manual, coords := s.lastLocation, mood := mood }
  match manualPickLesson tag s.profile.skills r with
  | some lesson =>
      { s with
        queue := manualQueueUpdate s.queue lesson ctx now
        lastTrigger := some (lesson.id, now) }
  | none => s

/-- `resetDemo` (the `localStorage.clear()` side effect is outside the
in-memory model; `ambientOn`, `lastTrigger` and `lastLocation` are not
touched by the handler). -/
def resetDemo (s : AppState) : AppState :=
  { s with
    profile := INITIAL_PROFILE
    lessonsSeen := []
    queue := []
    currentLesson := none
    envTags := ["Focus", "Learning", "Wellness"] }

/-- `handleMarkDone`: while a lesson is displayed, award its XP once
more and dismiss. -/
def handleMarkDone (s : AppState) : AppState :=
  match s.currentLesson with
  | some item =>
      dismissLesson { s with profile := { s.profile with xp := s.profile.xp + item.xp } }
  | none => s

-- ============== OPERATIONS / REACHABILITY ==============

/-- One user-visible operation of the widget, restricted to the six
state transitions the claims quantify over. -/
inductive Step : AppState → AppState → Prop
  | ambientTick (s : AppState) (ctx : Context) (r₁ r₂ : ℚ) (now : Nat) (lesson : Lesson) :
      s.ambientOn = true →
      pickLessonForContext ctx s.profile.skills s.lessonsSeen r₁ r₂ = some lesson →
      Step s (enqueueLessonState s lesson ctx now)
  | manualTrig (s : AppState) (tag mood : String) (r : ℚ) (now : Nat) :
      Step s (manualTrigger s tag mood r now)
  | openLesson (s : AppState) (item : LessonItem) :
      Step s (showLesson s item)
  | dismiss (s : AppState) :
      Step s (dismissLesson s)
  | markDone (s : AppState) :
      Step s (handleMarkDone s)
  | reset (s : AppState) :
      Step s (resetDemo s)

/-- Reachable: obtained by any sequence of operations from a start
state whose queue is empty (the queue is never persisted, so every
session starts with an empty queue whatever the store holds). -/
def Reachable (s : AppState) : Prop :=
  ∃ s₀ : AppState, s₀.queue = [] ∧ Relation.ReflTransGen Step s₀ s

-- ============== SHARED CONCRETE FIXTURES ==============

/-- A queue entry stamped at time 0, used by concrete evaluations. -/
def demoItem (lesson : Lesson) : LessonItem :=
  { toLesson := lesson, triggeredAt := some 0, context := none }

/-- A concrete queue at capacity (5 distinct lesson ids). -/
def fullQueue : List LessonItem :=
  [demoItem lessonP1, demoItem lessonC1, demoItem lessonA1, demoItem lessonS1, demoItem lessonE1]

/-- A concrete manual-mode context. -/
def manualCtx : Context :=
  { tags := ["Health", "Manual"], timeOfDay := .manual, coords := none, mood := "Focused" }

-- ============== C1 ==============

/-- C1 counterexample: at hour 0 (likewise 1-4) the code returns
`afternoon`, because the second branch is the bare fall-through
`hour < 17`; the claim says hours 0-4 yield `evening`. -/
theorem C1_time_of_day_counterexample :
    getTimeOfDay 0 = TimeOfDay.afternoon ∧ TimeOfDay.afternoon ≠ TimeOfDay.evening := by
  decide

/-- C1 (amended): the context builder's time-of-day category is
`getTimeOfDay` of the wall-clock hour, and the fixed boundaries are:
morning on [5,12), afternoon on [0,5) ∪ [12,17), evening on [17,∞). -/
theorem C1_time_of_day_boundaries :
    ∀ (envTags : List String) (loc : Option Coordinates) (hour : Nat) (mood : String)
      (idle waiting locRoll : Bool),
      (buildSimulatedContext envTags loc hour mood idle waiting locRoll).timeOfDay
          = getTimeOfDay hour
      ∧ (5 ≤ hour ∧ hour < 12 → getTimeOfDay hour = TimeOfDay.morning)
      ∧ (hour < 5 ∨ 12 ≤ hour ∧ hour < 17 → getTimeOfDay hour = TimeOfDay.afternoon)
      ∧ (17 ≤ hour → getTimeOfDay hour = TimeOfDay.evening) := by
  intro envTags loc hour mood idle waiting locRoll
  refine ⟨rfl, ?_, ?_, ?_⟩ <;>
    · intro h
      unfold getTimeOfDay
      split_ifs <;> first | rfl | omega

/-- C1 witness: hour 3 is in the afternoon branch of the amended claim. -/
theorem C1_time_of_day_boundaries_witness :
    (buildSimulatedContext [] none 3 ("Focused") false false false).timeOfDay
        = getTimeOfDay 3
    ∧ getTimeOfDay 3 = TimeOfDay.afternoon := by
  have h := C1_time_of_day_boundaries [] none 3 ("Focused") false false false
  exact ⟨h.1, h.2.2.1 (Or.inl (by decide))⟩

-- ============== C2 ==============

/-- C2 counterexample: `manualTrigger ("Productivity")` makes the
Culinary Chemistry lesson a candidate (because the requested tag is one
of the profile skills, `relevantLessons` keeps every lesson), yet none
of its tags appears in the context tag sequence
`["Productivity", "Manual"]` or in the skill set. -/
theorem C2_candidate_set_counterexample :
    lessonC1 ∈ relevantLessons ("Productivity") INITIAL_PROFILE.skills
    ∧ lessonC1.tags.any (fun t =>
        (["Productivity", "Manual"] : List String).contains t
          || INITIAL_PROFILE.skills.contains t) = false := by
  decide

/-- C2 (amended): on an ambient tick the candidate set is exactly the
catalog lessons with a tag appearing in the context tags or the skill
set; on a manual trigger it is exactly the catalog lessons whose tag
list contains the requested tag — or, whenever the requested tag is
itself one of the profile skills, the entire catalog. -/
theorem C2_candidate_set :
    (∀ (ctx : Context) (skills : List String) (l : Lesson),
        l ∈ pickCandidates ctx skills ↔
          l ∈ LESSONS ∧ ∃ t ∈ l.tags, t ∈ ctx.tags ∨ t ∈ skills)
    ∧ (∀ (tag : String) (skills : List String) (l : Lesson),
        l ∈ relevantLessons tag skills ↔
          l ∈ LESSONS ∧ (tag ∈ l.tags ∨ tag ∈ skills)) := by
  constructor
  · intro ctx skills l
    simp [pickCandidates, List.mem_filter]
  · intro tag skills l
    simp [relevantLessons, List.mem_filter]

/-- C2 witness: Health Hack is an ambient candidate for a context
tagged Health; Culinary Chemistry is a manual candidate for Cooking. -/
theorem C2_candidate_set_witness :
    lessonH1 ∈ pickCandidates manualCtx INITIAL_PROFILE.skills
    ∧ lessonC1 ∈ relevantLessons ("Cooking") INITIAL_PROFILE.skills :=
  ⟨(C2_candidate_set.1 manualCtx INITIAL_PROFILE.skills lessonH1).mpr
      ⟨by decide, ⟨"Health", by decide, Or.inl (by decide)⟩⟩,
   (C2_candidate_set.2 ("Cooking") INITIAL_PROFILE.skills lessonC1).mpr
      ⟨by decide, Or.inl (by decide)⟩⟩

-- ============== C3 ==============

/-- C3 counterexample: with the queue at capacity and a lesson not yet
queued, the manual-trigger insertion is NOT a no-op — `manualTrigger`
has no capacity rejection; it prepends the new item and slices, so the
oldest entry is evicted. -/
theorem C3_capacity_counterexample :
    fullQueue.length = 5
    ∧ fullQueue.all (fun item => item.id != lessonH1.id) = true
    ∧ manualQueueUpdate fullQueue lessonH1 manualCtx 100 ≠ fullQueue := by
  decide

/-- C3 (amended): with the queue at capacity (5) and a lesson whose id
is not queued, the ambient enqueue is a no-op, but the manual-trigger
insertion prepends the new item and truncates, evicting the oldest
entry: the result is the new item followed by the first 4 old ones. -/
theorem C3_capacity_enqueue :
    ∀ (q : List LessonItem) (lesson : Lesson) (ctx : Context) (now : Nat),
      q.length = 5 →
      (∀ item ∈ q, item.id ≠ lesson.id) →
      enqueueQueueUpdate q lesson ctx now = q
      ∧ manualQueueUpdate q lesson ctx now =
          ({ toLesson := lesson, triggeredAt := some now, context := some ctx } : LessonItem)
            :: q.take 4 := by
  intro q lesson ctx now hlen hno
  have hany : q.any (fun item => item.id == lesson.id) = false := by
    simp only [List.any_eq_false, beq_iff_eq]
    intro item hitem
    exact hno item hitem
  refine ⟨?_, ?_⟩
  · simp [enqueueQueueUpdate, hlen]
  · rw [manualQueueUpdate, hany]
    simp

/-- C3 witness: the amended behavior at a concrete full queue. -/
theorem C3_capacity_enqueue_witness :
    enqueueQueueUpdate fullQueue lessonH1 manualCtx 7 = fullQueue
    ∧ manualQueueUpdate fullQueue lessonH1 manualCtx 7 =
        ({ toLesson := lessonH1, triggeredAt := some 7, context := some manualCtx } : LessonItem)
          :: fullQueue.take 4 :=
  C3_capacity_enqueue fullQueue lessonH1 manualCtx 7 (by decide) (by decide)

-- ============== C4 ==============

theorem enqueueQueueUpdate_length_le (q : List LessonItem) (lesson : Lesson)
    (ctx : Context) (now : Nat) (hq : q.length ≤ 5) :
    (enqueueQueueUpdate q lesson ctx now).length ≤ 5 := by
  unfold enqueueQueueUpdate
  split_ifs with h₁ h₂
  · exact hq
  · exact hq
  · simp only [List.length_cons]
    omega

theorem manualQueueUpdate_length_le (q : List LessonItem) (lesson : Lesson)
    (ctx : Context) (now : Nat) (hq : q.length ≤ 5) :
    (manualQueueUpdate q lesson ctx now).length ≤ 5 := by
  unfold manualQueueUpdate
  split_ifs with h₁
  · exact hq
  · simp only [List.length_take, List.length_cons]
    omega

theorem step_queue_length_le {s t : AppState} (h : Step s t)
    (hs : s.queue.length ≤ 5) : t.queue.length ≤ 5 := by
  cases h with
  | ambientTick ctx r₁ r₂ now lesson hon hpick =>
      exact enqueueQueueUpdate_length_le _ _ _ _ hs
  | manualTrig tag mood r now =>
      cases hpick : manualPickLesson tag s.profile.skills r with
      | none => simpa [manualTrigger, hpick] using hs
      | some lesson =>
          simp only [manualTrigger, hpick]
          exact manualQueueUpdate_length_le _ _ _ _ hs
  | openLesson item =>
      simp only [showLesson]
      exact le_trans (List.length_filter_le _ _) hs
  | dismiss => exact hs
  | markDone =>
      cases hc : s.currentLesson with
      | none => simpa [handleMarkDone, hc] using hs
      | some item => simpa [handleMarkDone, hc, dismissLesson] using hs
  | reset => simp [resetDemo]

theorem reachable_queue_length_le {s : AppState} (h : Reachable s) :
    s.queue.length ≤ 5 := by
  obtain ⟨s₀, hq, hsteps⟩ := h
  induction hsteps with
  | refl => simp [hq]
  | tail _ hstep ih => exact step_queue_length_le hstep ih

/-- C4: after any of the six operations applied in a reachable state,
the queue holds at most 5 entries. -/
theorem C4_queue_bounded :
    ∀ s t : AppState, Reachable s → Step s t → t.queue.length ≤ 5 := by
  intro s t hs hst
  exact step_queue_length_le hst (reachable_queue_length_le hs)

/-- C4 witness: resetting the initial state keeps the bound. -/
theorem C4_queue_bounded_witness :
    (resetDemo initialAppState).queue.length ≤ 5 :=
  C4_queue_bounded initialAppState (resetDemo initialAppState)
    ⟨initialAppState, rfl, Relation.ReflTransGen.refl⟩ (Step.reset initialAppState)

-- ============== C5 ==============

/-- C5: opening a lesson bumps its seen counter by 1 (absent = 0), adds
exactly the lesson's XP, bumps the streak by 1, and removes precisely
the queue entries carrying that lesson id, keeping the rest in order. -/
theorem C5_show_lesson :
    ∀ (s : AppState) (item : LessonItem),
      lookupD (showLesson s item).lessonsSeen item.id
          = lookupD s.lessonsSeen item.id + 1
      ∧ (showLesson s item).profile.xp = s.profile.xp + item.xp
      ∧ (showLesson s item).profile.streak = s.profile.streak + 1
      ∧ (showLesson s item).currentLesson = some item
      ∧ (showLesson s item).queue.Sublist s.queue
      ∧ (∀ x ∈ (showLesson s item).queue, x.id ≠ item.id)
      ∧ (∀ x ∈ s.queue, x.id ≠ item.id → x ∈ (showLesson s item).queue) := by
  intro s item
  refine ⟨lookupD_setKey _ _ _, rfl, rfl, rfl, List.filter_sublist _, ?_, ?_⟩
  · intro x hx
    simp only [showLesson, List.mem_filter, bne_iff_ne, ne_eq] at hx
    exact hx.2
  · intro x hx hne
    simp only [showLesson, List.mem_filter, bne_iff_ne, ne_eq]
    exact ⟨hx, hne⟩

/-- C5 witness: opening Culinary Chemistry from the initial state. -/
theorem C5_show_lesson_witness :
    lookupD (showLesson initialAppState (demoItem lessonC1)).lessonsSeen ("c1") = 1
    ∧ (showLesson initialAppState (demoItem lessonC1)).profile.xp = 275
    ∧ (showLesson initialAppState (demoItem lessonC1)).profile.streak = 15 := by
  have h := C5_show_lesson initialAppState (demoItem lessonC1)
  exact ⟨h.1.trans (by decide), h.2.1.trans (by decide), h.2.2.1.trans (by decide)⟩

-- ============== C6 ==============

theorem walkWeighted_mem {r : ℚ} {ws : List (Lesson × ℚ)} {l : Lesson}
    (h : walkWeighted r ws = some l) : ∃ w, (l, w) ∈ ws := by
  induction ws generalizing r with
  | nil => simp [walkWeighted] at h
  | cons p rest ih =>
      obtain ⟨a, w⟩ := p
      rw [walkWeighted] at h
      split_ifs at h with hlt
      · obtain rfl : a = l := by simpa using h
        exact ⟨w, List.mem_cons_self _ _⟩
      · obtain ⟨w₁, hw⟩ := ih h
        exact ⟨w₁, List.mem_cons_of_mem _ hw⟩

theorem jsIndex_mem {α : Type} (xs : List α) (r : ℚ) (h₀ : 0 ≤ r) (h₁ : r < 1)
    (hne : xs ≠ []) : ∃ a ∈ xs, jsIndex xs r = some a := by
  have hlen : 0 < xs.length := List.length_pos.mpr hne
  have hlenQ : (0 : ℚ) < (xs.length : ℚ) := by exact_mod_cast hlen
  have hnn : 0 ≤ Int.floor (r * (xs.length : ℚ)) :=
    Int.floor_nonneg.mpr (mul_nonneg h₀ (le_of_lt hlenQ))
  have hltQ : r * (xs.length : ℚ) < (xs.length : ℚ) :=
    mul_lt_of_lt_one_left hlenQ h₁
  have hlt : Int.floor (r * (xs.length : ℚ)) < (xs.length : ℤ) :=
    Int.floor_lt.mpr (by exact_mod_cast hltQ)
  have hltn : (Int.floor (r * (xs.length : ℚ))).toNat < xs.length := by omega
  refine ⟨xs[(Int.floor (r * (xs.length : ℚ))).toNat], List.getElem_mem hltn, ?_⟩
  simp only [jsIndex, hnn, if_pos]
  exact List.getElem?_eq_getElem hltn

theorem jsIndex_cons_zero {α : Type} (a : α) (l : List α) : jsIndex (a :: l) 0 = some a := by
  simp [jsIndex]

/-- C6: for every context, skill set, seen-counter map and valid random
draws, the selector returns exactly one lesson and it belongs to the
fixed six-item catalog. -/
theorem C6_selector_total :
    ∀ (ctx : Context) (skills : List String) (seen : List (String × Nat)) (r₁ r₂ : ℚ),
      0 ≤ r₂ → r₂ < 1 →
      ∃ l ∈ LESSONS, pickLessonForContext ctx skills seen r₁ r₂ = some l := by
  intro ctx skills seen r₁ r₂ h₀ h₁
  by_cases hlen :
      0 < ((pickCandidates ctx skills).map (fun lesson => (lesson, lessonWeight seen lesson))).length
  · cases hwalk : walkWeighted
        (r₁ * totalWeight ((pickCandidates ctx skills).map (fun lesson => (lesson, lessonWeight seen lesson))))
        ((pickCandidates ctx skills).map (fun lesson => (lesson, lessonWeight seen lesson))) with
    | some l =>
        refine ⟨l, ?_, ?_⟩
        · obtain ⟨w, hmem⟩ := walkWeighted_mem hwalk
          obtain ⟨x, hx, hxeq⟩ := List.mem_map.mp hmem
          obtain rfl : x = l := congrArg Prod.fst hxeq
          exact List.mem_of_mem_filter hx
        · simp only [pickLessonForContext, hlen, if_pos, hwalk]
    | none =>
        obtain ⟨a, ha, hja⟩ := jsIndex_mem LESSONS r₂ h₀ h₁ (by decide)
        exact ⟨a, ha, by simp [pickLessonForContext, hlen, hwalk, hja]⟩
  · obtain ⟨a, ha, hja⟩ := jsIndex_mem LESSONS r₂ h₀ h₁ (by decide)
    rw [List.length_map] at hlen
    exact ⟨a, ha, by simp [pickLessonForContext, hlen, hja]⟩

/-- C6 witness: the selector evaluated at a concrete context and draws. -/
theorem C6_selector_total_witness :
    ∃ l ∈ LESSONS,
      pickLessonForContext manualCtx INITIAL_PROFILE.skills [] 0 0 = some l :=
  C6_selector_total manualCtx INITIAL_PROFILE.skills [] 0 0 (le_refl 0) (by norm_num)

-- ============== C7 ==============

/-- C7: the mark-complete handler adds the displayed lesson's XP a
second time, so open followed by complete adds exactly twice the
lesson's reward. -/
theorem C7_double_xp :
    ∀ (s : AppState) (item : LessonItem),
      (handleMarkDone (showLesson s item)).profile.xp = s.profile.xp + 2 * item.xp := by
  intro s item
  simp only [handleMarkDone, showLesson, dismissLesson]
  omega

-- ============== C8 ==============

/-- C8: inserting a lesson whose id is already queued leaves the queue
entirely unchanged, on both the ambient and the manual path. -/
theorem C8_duplicate_noop :
    ∀ (q : List LessonItem) (lesson : Lesson) (ctx : Context) (now : Nat)
      (item : LessonItem),
      item ∈ q → item.id = lesson.id →
      enqueueQueueUpdate q lesson ctx now = q
      ∧ manualQueueUpdate q lesson ctx now = q := by
  intro q lesson ctx now item hmem hid
  have hany : q.any (fun i => i.id == lesson.id) = true := by
    simp only [List.any_eq_true, beq_iff_eq]
    exact ⟨item, hmem, hid⟩
  constructor
  · simp [enqueueQueueUpdate, hany]
  · simp [manualQueueUpdate, hany]

/-- C8 witness: re-inserting the already-queued Productivity lesson. -/
theorem C8_duplicate_noop_witness :
    enqueueQueueUpdate fullQueue lessonP1 manualCtx 9 = fullQueue
    ∧ manualQueueUpdate fullQueue lessonP1 manualCtx 9 = fullQueue :=
  C8_duplicate_noop fullQueue lessonP1 manualCtx 9 (demoItem lessonP1)
    (by decide) (by decide)

-- ============== C9 ==============

/-- C9: reset restores the literal initial profile, empties the queue
and the seen counters, clears the current lesson, and restores the
literal 3-item environment tag default. -/
theorem C9_reset :
    ∀ s : AppState,
      (resetDemo s).profile = INITIAL_PROFILE
      ∧ (resetDemo s).profile.name = "Alex Chen"
      ∧ (resetDemo s).profile.skills.length = 5
      ∧ (resetDemo s).profile.xp = 245
      ∧ (resetDemo s).profile.streak = 14
      ∧ (resetDemo s).profile.level = 7
      ∧ (resetDemo s).queue = []
      ∧ (resetDemo s).lessonsSeen = []
      ∧ (resetDemo s).currentLesson = none
      ∧ (resetDemo s).envTags = ["Focus", "Learning", "Wellness"]
      ∧ (resetDemo s).envTags.length = 3 := by
  intro s
  exact ⟨rfl, rfl, rfl, rfl, rfl, rfl, rfl, rfl, rfl, rfl, rfl⟩

-- ============== C10 ==============

/-- C10: whenever a selection yields a lesson, the last-trigger marker
is set to that lesson's id and the current timestamp — including when
the queue insertion itself is a rejected no-op. -/
theorem C10_last_trigger :
    (∀ (s : AppState) (lesson : Lesson) (ctx : Context) (now : Nat),
        (enqueueLessonState s lesson ctx now).lastTrigger = some (lesson.id, now))
    ∧ (∀ (s : AppState) (tag mood : String) (r : ℚ) (now : Nat) (lesson : Lesson),
        manualPickLesson tag s.profile.skills r = some lesson →
        (manualTrigger s tag mood r now).lastTrigger = some (lesson.id, now)) := by
  constructor
  · intro s lesson ctx now
    rfl
  · intro s tag mood r now lesson hpick
    simp only [manualTrigger, hpick]

/-- C10 witness: ambient path at a full-queue-irrelevant state, and the
manual path with the Cooking tag selecting Culinary Chemistry. -/
theorem C10_last_trigger_witness :
    (enqueueLessonState initialAppState lessonP1 manualCtx 5).lastTrigger = some (("p1"), 5)
    ∧ (manualTrigger initialAppState ("Cooking") ("Focused") 0 9).lastTrigger
        = some (("c1"), 9) :=
  ⟨C10_last_trigger.1 initialAppState lessonP1 manualCtx 5,
   C10_last_trigger.2 initialAppState ("Cooking") ("Focused") 0 9 lessonC1
     (by
       have hrel : relevantLessons ("Cooking") initialAppState.profile.skills = [lessonC1] := by
         decide
       simp [manualPickLesson, hrel, jsIndex_cons_zero])⟩

end AmbientSkillSync
